import Mathlib

/-!
Shallow embedding of `src/createTestStory.py` (jiraToClubhouseCLI).

The script is a single linear sequence:

  token = sys.argv[1]
  try:
      data = {'name':'TEST STORY', 'project_id': 13, 'owner_ids':[]}
      print(token)
      r = requests.post('https://api.clubhouse.io/api/v3/stories',
                        params={'token':token}, data=data)
      print(r)
  except RequestException as err:
      print(err)

We model an invocation as a function of the full `sys.argv` list (index 0
is the interpreter-supplied script name, exactly as in Python) and of a
network oracle saying what `requests.post` does: either it completes with
an HTTP response (any status code) or it raises a transport error.  The
run produces a trace of observable events (writes to standard output and
the POST request that was issued) together with an exit status.

Python name resolution for the `except RequestException` clause is
modelled explicitly: the module scope holds only the three imported names
and the assigned variables, and the clause's type name is looked up in
that scope at the moment an exception propagates to it.  Since
`RequestException` is absent, the lookup itself fails with a NameError,
which is the documented latent defect.
-/

/-- The story payload dictionary built by the script (`data`, lines 10-14). -/
structure StoryPayload where
  name : String
  project_id : Int
  owner_ids : List Int
  deriving Repr, DecidableEq

/-- An outgoing HTTP POST request as `requests.post` receives it:
positional url, `params` keyword (query parameters) and `data` keyword
(form body). -/
structure HttpRequest where
  url : String
  params : List (String × String)
  body : StoryPayload
  deriving Repr, DecidableEq

/-- What the network does when `requests.post` is called: either the
request completes and yields a response object (with some status code and
some printed representation), or the transport layer raises. -/
inductive NetOutcome where
  | response (status : Nat) (reprStr : String)
  | transportError (msg : String)
  deriving Repr, DecidableEq

/-- Observable events of one invocation, in order. -/
inductive Event where
  | printOut (s : String)
  | post (r : HttpRequest)
  deriving Repr, DecidableEq

/-- How the process terminates. -/
inductive ExitStatus where
  /-- Fell off the end of the script: exit code 0. -/
  | ok
  /-- `sys.argv[1]` raised IndexError: unhandled, non-zero exit. -/
  | indexError
  /-- Evaluating the `except` clause's type name raised NameError:
  unhandled, non-zero exit. -/
  | nameError (n : String)
  /-- The `except` clause matched and ran `print(err)`: exit code 0.
  Unreachable in this script, present so that the semantics of the
  handler is not baked into the model. -/
  | caughtOk
  deriving Repr, DecidableEq

/-- Exit code of the process for each termination mode (CPython exits
with 1 on any unhandled exception). -/
def exitCode : ExitStatus → Nat
  | .ok => 0
  | .indexError => 1
  | .nameError _ => 1
  | .caughtOk => 0

/-- Names imported at module top (`import requests`, `import sys`,
`import json`). -/
def importedNames : List String := ["requests", "sys", "json"]

/-- Names assigned in the module body (`token`, `data`, `r`). -/
def assignedNames : List String := ["token", "data", "r"]

/-- Module scope in which the `except` clause's type name is resolved
(builtins like `print` are irrelevant: `RequestException` is not one). -/
def moduleScope : List String := importedNames ++ assignedNames

/-- The identifier named by the `except ... as err` clause (line 18). -/
def exceptClauseName : String := "RequestException"

/-- The endpoint string literal passed to `requests.post` (line 16). -/
def endpointUrl : String := "https://api.clubhouse.io/api/v3/stories"

/-- The `data` dictionary (lines 10-14): constant string name, constant
integer project id, empty owner list. -/
def storyData : StoryPayload :=
  { name := "TEST STORY", project_id := 13, owner_ids := [] }

/-- The full request issued for a given token: fixed url, the token as the
single query parameter, the constant payload as the body. -/
def requestFor (token : String) : HttpRequest :=
  { url := endpointUrl, params := [("token", token)], body := storyData }

/-- One invocation of the script.  `sysArgv` is the complete `sys.argv`
(element 0 being the script path).  Returns the ordered event trace and
the termination status. -/
def run (sysArgv : List String) (net : NetOutcome) : List Event × ExitStatus :=
  match sysArgv with
  | _script :: token :: _rest =>
      -- line 7 bound `token`; lines 10-16 build `data`, print the token,
      -- then call requests.post.  The .post event records the request as
      -- handed to the library, whether or not the transport succeeds.
      let prefixEvents : List Event :=
        [.printOut token, .post (requestFor token)]
      match net with
      | .response _status reprStr =>
          -- line 17: print(r); then the script ends normally.
          (prefixEvents ++ [.printOut reprStr], .ok)
      | .transportError _ =>
          -- the raised transport error propagates to line 18, where
          -- Python evaluates the name `RequestException` in module scope.
          if moduleScope.contains exceptClauseName then
            (prefixEvents ++ [.printOut "err"], .caughtOk)
          else
            (prefixEvents, .nameError exceptClauseName)
  | _ =>
      -- sys.argv[1] raises IndexError before the try block is entered:
      -- nothing is printed and no request is built or sent.
      ([], .indexError)

/-- The POST requests occurring in a trace, in order. -/
def postsOf (events : List Event) : List HttpRequest :=
  events.filterMap fun e =>
    match e with
    | .post r => some r
    | .printOut _ => none

/-- Two sequential invocations of the script with the same argv, each with
its own network outcome: the traces concatenate, nothing is shared. -/
def runTwice (sysArgv : List String) (net1 net2 : NetOutcome) : List Event :=
  (run sysArgv net1).1 ++ (run sysArgv net2).1

/-- C1: with exactly one command-line argument `T` (so `sys.argv` is the
script name followed by `T`), whatever the network does, the invocation
issues exactly one POST request, to the fixed endpoint, with the single
query parameter `token = T`, and the body has name "TEST STORY",
project_id 13 and empty owner_ids. -/
theorem single_arg_posts_once (script T : String) (net : NetOutcome) :
    postsOf (run [script, T] net).1 = [requestFor T] ∧
    (requestFor T).url = "https://api.clubhouse.io/api/v3/stories" ∧
    (requestFor T).params = [("token", T)] ∧
    (requestFor T).body.name = "TEST STORY" ∧
    (requestFor T).body.project_id = 13 ∧
    (requestFor T).body.owner_ids = [] := by
  refine ⟨?_, rfl, rfl, rfl, rfl, rfl⟩
  cases net with
  | response status reprStr => simp [run, postsOf]
  | transportError msg => simp [run, postsOf, moduleScope, importedNames,
      assignedNames, exceptClauseName]

/-- C2: when the POST raises a transport error, resolving the `except`
clause's type name fails (the name is not in module scope), so the run
ends in an unhandled NameError, not a graceful catch, and the exit code
is non-zero. -/
theorem transport_error_is_name_error (script T : String)
    (rest : List String) (msg : String) :
    (run (script :: T :: rest) (.transportError msg)).2
      = .nameError exceptClauseName ∧
    moduleScope.contains exceptClauseName = false ∧
    exitCode (run (script :: T :: rest) (.transportError msg)).2 ≠ 0 := by
  refine ⟨?_, by decide, ?_⟩ <;>
    simp [run, exitCode, moduleScope, importedNames, assignedNames,
      exceptClauseName]

/-- C3: with zero command-line arguments (`sys.argv` holds only the
script name), the run fails with the IndexError status, nothing is
printed, no POST request appears in the trace, and the exit code is
non-zero. -/
theorem no_args_index_error (script : String) (net : NetOutcome) :
    run [script] net = ([], .indexError) ∧
    postsOf (run [script] net).1 = [] ∧
    exitCode (run [script] net).2 ≠ 0 := by
  refine ⟨rfl, rfl, ?_⟩
  simp [run, exitCode]

/-- C4: on a completed response, the trace prints the token and the
response's representation (in that order, around the POST), and the
process exits with code 0. -/
theorem success_prints_token_and_response (script T : String)
    (rest : List String) (status : Nat) (reprStr : String) :
    (run (script :: T :: rest) (.response status reprStr)).1
      = [.printOut T, .post (requestFor T), .printOut reprStr] ∧
    exitCode (run (script :: T :: rest) (.response status reprStr)).2 = 0 := by
  exact ⟨rfl, rfl⟩

/-- C5: the response is never inspected: for any argv, two completed
responses with the same printed representation but arbitrary (possibly
different) status codes produce identical runs — the status code cannot
influence anything. -/
theorem response_status_not_inspected (sysArgv : List String)
    (status1 status2 : Nat) (reprStr : String) :
    run sysArgv (.response status1 reprStr)
      = run sysArgv (.response status2 reprStr) := by
  cases sysArgv with
  | nil => rfl
  | cons script rest =>
    cases rest with
    | nil => rfl
    | cons token rest2 => rfl

/-- C6: the story payload is constant and independent of the token: the
bodies built for any two tokens are equal, equal to the fixed payload
with name "TEST STORY", project_id 13 and empty owner_ids, and the
requests differ only in the token query parameter (url and body agree). -/
theorem payload_independent_of_token (T1 T2 : String) :
    (requestFor T1).body = (requestFor T2).body ∧
    (requestFor T1).body
      = { name := "TEST STORY", project_id := 13, owner_ids := [] } ∧
    (requestFor T1).url = (requestFor T2).url ∧
    (requestFor T1).params = [("token", T1)] ∧
    (requestFor T2).params = [("token", T2)] := by
  exact ⟨rfl, rfl, rfl, rfl, rfl⟩

/-- C7: no deduplication and no idempotency key: two sequential
invocations with the same token issue two independent POST requests, one
each, and every query parameter of the request is the token parameter —
no idempotency key is ever attached. -/
theorem two_runs_two_posts (script T : String) (rest : List String)
    (net1 net2 : NetOutcome) :
    postsOf (runTwice (script :: T :: rest) net1 net2)
      = [requestFor T, requestFor T] ∧
    ∀ p ∈ (requestFor T).params, p.1 = "token" := by
  constructor
  · cases net1 <;> cases net2 <;>
      simp [runTwice, run, postsOf, moduleScope, importedNames,
        assignedNames, exceptClauseName]
  · intro p hp
    simp [requestFor] at hp
    simp [hp]

/-- C8: with at least one argument, the token is printed before the POST
is attempted: whatever the network outcome, the trace begins with the
token print followed by the POST event, so the token is printed even on
invocations whose request subsequently fails. -/
theorem token_printed_before_post (script T : String) (rest : List String)
    (net : NetOutcome) :
    (run (script :: T :: rest) net).1.take 2
      = [.printOut T, .post (requestFor T)] := by
  cases net with
  | response status reprStr => rfl
  | transportError msg =>
    simp [run, moduleScope, importedNames, assignedNames, exceptClauseName]

/-- C9: whenever the POST completes with a response, the process exits
with code 0 regardless of the response's status code: no branch inspects
the status and nothing raises after a completed request. -/
theorem completed_response_exits_zero (script T : String)
    (rest : List String) (status : Nat) (reprStr : String) :
    (run (script :: T :: rest) (.response status reprStr)).2 = .ok ∧
    exitCode (run (script :: T :: rest) (.response status reprStr)).2 = 0 := by
  exact ⟨rfl, rfl⟩

/-- C10: with two or more arguments only the first is used: the run is
identical for any two tails of extra arguments, so extras are silently
ignored and never cause an error. -/
theorem extra_args_ignored (script T : String) (rest1 rest2 : List String)
    (net : NetOutcome) :
    run (script :: T :: rest1) net = run (script :: T :: rest2) net := by
  cases net <;> rfl
